import Mathlib

/-
  Verification of the ATS backend core against its specification.

  The definitions below are a shallow embedding of the JavaScript source:
  - src/backend/src/services/db.js        (queryWithRetry, DELAY)
  - src/backend/src/services/s3.js        (uploadResume retry loop, DELAY)
  - src/backend/src/utils/hash.js         (SHA-256 hex digest, modelled as an
                                           abstract pure function parameter)
  - src/backend/src/utils/createTokens.js (createTokens)
  - src/app.js                            (auth middleware and the
                                           login/logout/refresh handlers)

  External collaborators are modelled by their documented contracts:
  the jsonwebtoken library symbolically (a signed token records its payload,
  issue time, expiry and signing secret), and PostgreSQL by the documented
  semantics of the exact SQL statements the handlers issue.
-/

set_option maxRecDepth 100000

deriving instance DecidableEq for Except

namespace ATS

/-! ## Retry wrapper (services/db.js lines 44-62, services/s3.js lines 98-127)

The JS loop is
  for (attempt = 0; attempt < attempts; attempt++) then
    try return await op() catch if attempt == attempts-1 break else sleep(delay)
  throw new Error(fixed message)
We model the environment by a function from the attempt index to the outcome
of that underlying invocation, and return the result together with the number
of underlying invocations performed. -/

/-- One step of the retry loop: `n` attempts remain, the next underlying
invocation has index `i`.  Returns the outcome and the invocation count. -/
def retryLoop (op : Nat → Except String α) (failMsg : String) :
    Nat → Nat → Except String α × Nat
  | 0, _ => (Except.error failMsg, 0)
  | n + 1, i =>
      match op i with
      | Except.ok a => (Except.ok a, 1)
      | Except.error _ =>
          let rest := retryLoop op failMsg n (i + 1)
          (rest.1, rest.2 + 1)

/-- db.js `queryWithRetry`: the loop with the fixed final message
`Query failed after all attempts` (db.js line 61). -/
def queryWithRetry (op : Nat → Except String α) (attempts : Nat) :
    Except String α × Nat :=
  retryLoop op "Query failed after all attempts" attempts 0

/-- s3.js `uploadResume` retry loop: identical shape, fixed final message
`Upload resume failed after all attempts` (s3.js line 126). -/
def uploadResumeRetry (op : Nat → Except String α) (attempts : Nat) :
    Except String α × Nat :=
  retryLoop op "Upload resume failed after all attempts" attempts 0

/-- Whether an `Except` is an error (a rejected promise in the JS source). -/
def isErr : Except String α → Bool
  | Except.error _ => true
  | Except.ok _ => false

/-- The message carried by an error outcome (empty for a success). -/
def errMsg : Except String α → String
  | Except.error m => m
  | Except.ok _ => ""

/-- db.js line 32: `DELAY = NODE_ENV === 'test' ? 10 : 1000` (milliseconds). -/
def dbDELAY (nodeEnv : String) : Nat :=
  if nodeEnv = "test" then 10 else 1000

/-- s3.js line 15: `DELAY = 10`, with no environment check at all. -/
def s3DELAY : Nat := 10

/-- The inter-attempt delay the blob gateway uses when running under
environment `nodeEnv`: s3.js always uses the constant `s3DELAY`. -/
def s3DelayFor (_nodeEnv : String) : Nat := s3DELAY

/-- Default `attempts` parameter of db.js `queryWithRetry` (line 44). -/
def dbDefaultAttempts : Nat := 3

/-- Default `attempts` parameter of every s3.js operation: `uploadResume`,
`downloadResume`, `deleteResume` and `emptyBucket` all declare
`attempts = 3` (s3.js lines 51, 98, 138, 172). -/
def s3DefaultAttempts : Nat := 3

/-- Substring test, used to formalise an error being a wrap of another. -/
def containsSub (s pat : String) : Bool :=
  (List.range (s.data.length + 1)).any fun i =>
    pat.data.isPrefixOf (s.data.drop i)

/-- Formalisation of claim C6 as stated: the propagated error is the last
underlying error unchanged, or wraps it together with the attempt count. -/
def lastErrorPropagated (thrown lastErr : String) (attempts : Nat) : Prop :=
  thrown = lastErr ∨
    (containsSub thrown lastErr = true ∧ containsSub thrown (toString attempts) = true)

instance (thrown lastErr : String) (attempts : Nat) :
    Decidable (lastErrorPropagated thrown lastErr attempts) := by
  unfold lastErrorPropagated
  infer_instance

/-- Formalisation of claim C8 as stated: default attempt count 3 for both
gateways, and inter-attempt delay 1000 ms in production versus 10 ms under
test for both gateways. -/
def retryDefaultsClaim : Prop :=
  dbDefaultAttempts = 3 ∧ s3DefaultAttempts = 3 ∧
  dbDELAY "production" = 1000 ∧ dbDELAY "test" = 10 ∧
  s3DelayFor "production" = 1000 ∧ s3DelayFor "test" = 10

instance : Decidable retryDefaultsClaim := by
  unfold retryDefaultsClaim
  infer_instance

/-! ## Tokens (utils/createTokens.js, utils/hash.js)

`hash.js` is the SHA-256 hex digest of the input; we keep it abstract as a
pure function parameter `hashFn`.  The jsonwebtoken library is modelled
symbolically: a signed token records its payload, issue time, expiry and the
signing secret; verification succeeds exactly when the secret matches and the
expiry has not passed, and it distinguishes an expired token (matching
secret, elapsed expiry — TokenExpiredError) from an invalid one (secret
mismatch or undecodable — JsonWebTokenError), checking the signature before
the expiry as the library does. -/

/-- The JWT payload built by createTokens.js lines 35-39:
`sub = id, name = username, isAdmin`. -/
structure AccessPayload where
  sub : Int
  name : String
  isAdmin : Bool
deriving DecidableEq

/-- Symbolic model of a signed JWT: payload plus issued-at and expiry
instants (seconds) plus the signing secret. -/
structure SignedJwt where
  payload : AccessPayload
  iat : Int
  exp : Int
  secret : String
deriving DecidableEq

/-- Symbolic `jwt.sign(payload, secret, expiresIn)` at instant `now`. -/
def jwtSign (payload : AccessPayload) (secret : String) (now ttl : Int) : SignedJwt :=
  { payload := payload, iat := now, exp := now + ttl, secret := secret }

/-- Outcome of `jwt.verify`: the decoded payload, a TokenExpiredError, or a
JsonWebTokenError (bad signature / undecodable token). -/
inductive VerifyResult
  | ok (payload : AccessPayload)
  | expired
  | invalid
deriving DecidableEq

/-- Symbolic `jwt.verify(token, secret)` at instant `now`: the signature is
checked first, then the expiry (token no longer accepted once `exp ≤ now`). -/
def jwtVerify (t : SignedJwt) (secret : String) (now : Int) : VerifyResult :=
  if t.secret ≠ secret then VerifyResult.invalid
  else if t.exp ≤ now then VerifyResult.expired
  else VerifyResult.ok t.payload

/-- createTokens.js line 9: `EXPIRES_IN = '5m'`, i.e. 300 seconds. -/
def EXPIRES_IN_SECS : Int := 300

/-- Result of createTokens.js: a signed access token, the raw refresh token
and its one-way hash. -/
structure Tokens where
  accessToken : SignedJwt
  refreshToken : String
  refreshTokenHash : String
deriving DecidableEq

/-- createTokens.js lines 30-49.  `rng` stands for the value of
`crypto.randomBytes(32).toString('hex')` drawn for this call; `hashFn` for
hash.js.  The JS type guard on (number, string, boolean) arguments is
enforced by the Lean types. -/
def createTokens (hashFn : String → String) (rng secret : String) (now : Int)
    (id : Int) (username : String) (isAdmin : Bool) : Tokens :=
  { accessToken :=
      jwtSign { sub := id, name := username, isAdmin := isAdmin } secret now EXPIRES_IN_SECS
    refreshToken := rng
    refreshTokenHash := hashFn rng }

/-! ## Auth middleware (src/app.js lines 19-48) -/

/-- JS `s.split(' ')` for a single-space separator: adjacent separators and a
trailing separator produce empty components, and splitting the empty string
gives one empty component. -/
def splitSpaceAux : List Char → List Char → List String
  | [], acc => [String.mk acc.reverse]
  | c :: cs, acc =>
      if c = ' ' then String.mk acc.reverse :: splitSpaceAux cs []
      else splitSpaceAux cs (c :: acc)

/-- JS `s.split(' ')`. -/
def jsSplitSpace (s : String) : List String :=
  splitSpaceAux s.data []

/-- app.js line 21: `authHeader && authHeader.split(' ')[1]`.  `none` models
both a missing header and an out-of-range index (JS undefined). -/
def bearerToken (authHeader : Option String) : Option String :=
  match authHeader with
  | none => none
  | some h => (jsSplitSpace h).get? 1

/-- Claim C10 reads the extracted credential as the substring after the
first space of the header (everything that follows the first space). -/
def afterFirstSpace (h : String) : Option String :=
  match jsSplitSpace h with
  | [] => none
  | [_] => none
  | _ :: rest => some (String.intercalate " " rest)

/-- What an Express middleware did with the request: responded immediately
with a status and an error body, or called `next()` with `req.user` set. -/
inductive AuthOutcome
  | reject (status : Nat) (msg : String)
  | proceed (user : AccessPayload)
deriving DecidableEq

/-- Verification of a token presented as a string.  `decode` models the
parsing half of `jwt.verify`: which strings decode to which signed token
(an undecodable string yields a JsonWebTokenError, i.e. `invalid`). -/
def verifyString (decode : String → Option SignedJwt) (secret : String)
    (now : Int) (s : String) : VerifyResult :=
  match decode s with
  | none => VerifyResult.invalid
  | some t => jwtVerify t secret now

/-- app.js lines 19-39, the `authenticate` middleware.  The JS truthiness
test `!token` rejects both undefined (no second component) and the empty
string. -/
def authenticate (decode : String → Option SignedJwt) (secret : String)
    (now : Int) (authHeader : Option String) : AuthOutcome :=
  match bearerToken authHeader with
  | none => AuthOutcome.reject 401 "Access token is required"
  | some t =>
      if t = "" then AuthOutcome.reject 401 "Access token is required"
      else
        match verifyString decode secret now t with
        | VerifyResult.ok p => AuthOutcome.proceed p
        | VerifyResult.expired => AuthOutcome.reject 401 "Access token has expired "
        | VerifyResult.invalid => AuthOutcome.reject 401 "Invalid access token "

/-- app.js lines 42-48, the `authorize` middleware: `req.user` must exist
and have `isAdmin` truthy, else 403.  Returns the error response it sends,
or `none` when it calls `next()`. -/
def authorize (user : Option AccessPayload) : Option (Nat × String) :=
  match user with
  | none => some (403, "Forbidden: Admins only")
  | some p => if !p.isAdmin then some (403, "Forbidden: Admins only") else none

/-- Outcome of the middleware chain of a protected route. -/
inductive GateResult
  | denied (status : Nat) (msg : String)
  | granted (user : AccessPayload)
deriving DecidableEq

/-- app.js line 285: `app.get('/api/resumes/:id', authenticate, authorize, ...)`.
Express runs the middlewares in order; a middleware that responds without
calling `next()` ends the chain. -/
def protectedRoute (decode : String → Option SignedJwt) (secret : String)
    (now : Int) (authHeader : Option String) : GateResult :=
  match authenticate decode secret now authHeader with
  | AuthOutcome.reject s m => GateResult.denied s m
  | AuthOutcome.proceed p =>
      match authorize (some p) with
      | some (s, m) => GateResult.denied s m
      | none => GateResult.granted p

/-! ## Session store state and the PostgreSQL semantics of the auth queries

The durable state consists of the `users` and `refresh_tokens` tables
(database/db_schema.pgsql).  The handlers in src/app.js issue four
statements against it; we embed each statement text verbatim and model its
execution by the documented PostgreSQL/node-postgres semantics of exactly
that text.

Two facts about that semantics matter below.

First, a parenthesized target list such as `SELECT (user_id, expires_at)`
is a ROW constructor in PostgreSQL: the statement returns a single column of
an anonymous record type, whose output name is `row`.  node-postgres
therefore delivers rows shaped like `[row: "(1,...)"]` — neither `user_id`
nor `expires_at` is a field of the returned row object, so reading them in
JS yields undefined.  (The API tests mock `pool.query` with rows that do
carry named fields, which is why they pass while the statement itself does
not produce that shape.)

Second, the SET list of an UPDATE statement requires a comma between
assignments (`SET a = $1, b = $2`).  The refresh handler statement
(app.js lines 220-226) has no comma between its two assignments — indeed no
comma anywhere, see `updateQuery_has_no_comma` inside theorem c2 below — so
PostgreSQL rejects it with a syntax error and the call always throws. -/

/-- A row of the `refresh_tokens` table: `(user_id, refresh_token_hash
UNIQUE, expires_at)`; `expiresAt` in epoch milliseconds. -/
structure RefreshRow where
  userId : Int
  tokenHash : String
  expiresAt : Int
deriving DecidableEq

/-- A row of the `users` table. -/
structure UserRow where
  id : Int
  username : String
  pwdHash : String
  isAdmin : Bool
deriving DecidableEq

/-- The durable state the auth handlers touch. -/
structure Db where
  users : List UserRow
  refreshTokens : List RefreshRow
deriving DecidableEq

/-- A JS value delivered by node-postgres in a result row. -/
inductive JsValue
  | vInt (n : Int)
  | vStr (s : String)
  | vDate (ms : Int)
  | vBool (b : Bool)
deriving DecidableEq

/-- A JS result-row object: field name to value. -/
def JsRow := List (String × JsValue)

instance : DecidableEq JsRow := by
  unfold JsRow
  infer_instance

/-- JS property read `row.name`: `none` is undefined. -/
def jsField (row : JsRow) (name : String) : Option JsValue :=
  (row.find? fun p => p.1 == name).map fun p => p.2

/-- JS `x < new Date()` where `x` came out of a result row: a Date compares
by its epoch value; undefined (and any non-numeric value) converts to NaN
and every comparison with NaN is false. -/
def jsLtDate (v : Option JsValue) (now : Int) : Bool :=
  match v with
  | some (JsValue.vDate ms) => decide (ms < now)
  | some (JsValue.vInt n) => decide (n < now)
  | _ => false

/-- The text an anonymous-record column prints as (its exact content is
never consulted by the handlers). -/
def rowLiteral (fields : List String) : String :=
  "(" ++ String.intercalate "," fields ++ ")"

/-- app.js lines 187-191, statement text of the refresh-token lookup. -/
def refreshTokenQuery : String :=
  "\n    SELECT (user_id, expires_at)\n    FROM refresh_tokens\n    WHERE refresh_token_hash = $1\n    "

/-- Execution of `refreshTokenQuery` with parameter `$1 = hashParam`:
the WHERE clause filters on the hash column; the parenthesized target list
produces a single composite column named `row`. -/
def refreshTokenQueryExec (db : Db) (hashParam : String) : List JsRow :=
  (db.refreshTokens.filter fun r => r.tokenHash == hashParam).map fun r =>
    [("row", JsValue.vStr (rowLiteral [toString r.userId, toString r.expiresAt]))]

/-- app.js lines 203-207, statement text of the user lookup. -/
def userQuery : String :=
  "\n    SELECT (id, username, pwd_hash, is_admin)\n    FROM users\n    WHERE id = $1\n    "

/-- Execution of `userQuery` with parameter `$1 = idParam` as passed from
JS: node-postgres serialises undefined as NULL, and `id = NULL` matches no
row; a numeric parameter filters on `id`; again the target list collapses
to one composite column named `row`. -/
def userQueryExec (db : Db) (idParam : Option JsValue) : List JsRow :=
  match idParam with
  | some (JsValue.vInt n) =>
      (db.users.filter fun u => u.id == n).map fun u =>
        [("row", JsValue.vStr (rowLiteral [toString u.id, u.username]))]
  | _ => []

/-- app.js lines 220-226, statement text of the rotation UPDATE, verbatim:
the SET list lacks the comma that the UPDATE grammar requires between the
two assignments. -/
def updateQuery : String :=
  "\n      UPDATE refresh_tokens\n      SET \n        refresh_token_hash = $1\n        expires_at = $2\n      WHERE refresh_token_hash = $3\n    "

/-- Execution of `updateQuery`: PostgreSQL parses the statement before
looking at the parameters and rejects it with a syntax error at
`expires_at` (see `updateQuery` and the section comment), so the call
throws for every parameter list and the state never changes. -/
def updateQueryExec (_db : Db) (_newHash : String) (_newExpiry : Int)
    (_oldHash : String) : Except String Db :=
  Except.error "syntax error at or near expires_at"

/-- app.js lines 150-153, statement text of the logout DELETE. -/
def deleteQuery : String :=
  "\n    DELETE FROM refresh_tokens\n    WHERE refresh_token_hash = $1\n    "

/-- Execution of `deleteQuery` with `$1 = hashParam`: removes every row
whose hash column equals the parameter; deleting nothing is a normal
result. -/
def deleteQueryExec (db : Db) (hashParam : String) : Db :=
  { db with refreshTokens := db.refreshTokens.filter fun r => !(r.tokenHash == hashParam) }

/-- app.js line 16: `REFRESH_TOKEN_EXPIRY = 30 * 24 * 60 * 60 * 1000`. -/
def REFRESH_TOKEN_EXPIRY : Int := 30 * 24 * 60 * 60 * 1000

/-! ## The login INSERT and refresh UPDATE parameter lists (claim C3) -/

/-- A positional SQL query parameter as passed to `pool.query`. -/
inductive SqlParam
  | pInt (n : Int)
  | pStr (s : String)
  | pDate (ms : Int)
deriving DecidableEq

/-- app.js lines 114-118: the parameters of the login INSERT INTO
refresh_tokens, for the token triple `tk` returned by createTokens:
`[userData.id, refreshTokenHash, new Date(Date.now() + REFRESH_TOKEN_EXPIRY)]`. -/
def loginInsertParams (userId : Int) (tk : Tokens) (now : Int) : List SqlParam :=
  [SqlParam.pInt userId, SqlParam.pStr tk.refreshTokenHash,
   SqlParam.pDate (now + REFRESH_TOKEN_EXPIRY)]

/-- app.js lines 227-231: the parameters of the rotation UPDATE:
`[newRefreshTokenHash, new Date(Date.now() + 30*24*60*60*1000), refreshTokenHash]`
where the last entry is the hash of the presented (old) token. -/
def refreshUpdateParams (newTk : Tokens) (oldHash : String) (now : Int) : List SqlParam :=
  [SqlParam.pStr newTk.refreshTokenHash,
   SqlParam.pDate (now + REFRESH_TOKEN_EXPIRY),
   SqlParam.pStr oldHash]

/-! ## The logout and refresh handlers (src/app.js) -/

/-- Outcome of the refresh handler, after input validation accepted the
request: an error response with a status and a JSON error message, a 200
response carrying the new token pair, or the 500 produced by the error
middleware when the handler threw (app.js lines 639-643). -/
inductive RefreshResult
  | res (status : Nat) (error : String)
  | ok (accessToken : SignedJwt) (refreshToken : String)
  | serverError
deriving DecidableEq

/-- app.js lines 184-238, the POST /api/auth/refresh handler body, for a
string `refreshToken` that passed input validation.  `rng` is the random
value createTokens would draw for this request.  Mirrors the source line by
line; each modelled JS/PostgreSQL behaviour is noted. -/
def refreshHandler (hashFn : String → String) (rng secret : String)
    (now : Int) (db : Db) (refreshToken : String) : RefreshResult × Db :=
  let refreshTokenHash := hashFn refreshToken
  let rows := refreshTokenQueryExec db refreshTokenHash
  -- line 196: `rowCount === 0 || rows[0].expires_at < new Date()`;
  -- the composite result has no expires_at field, so the read is undefined
  if rows.length = 0 ∨ jsLtDate (jsField (rows.headD []) "expires_at") now then
    (RefreshResult.res 401 "Invalid refresh token", db)
  else
    -- line 200: `rows[0].user_id`, undefined for the composite result
    let userIdJs := jsField (rows.headD []) "user_id"
    let userRows := userQueryExec db userIdJs
    -- line 210: `const row = userResult.rows[0]` with no rowCount check
    match userRows.head? with
    | none =>
        -- line 217: reading `row.id` on undefined throws a TypeError,
        -- caught at line 236 and passed to the 500 error middleware
        (RefreshResult.serverError, db)
    | some urow =>
        match jsField urow "id", jsField urow "username", jsField urow "is_admin" with
        | some (JsValue.vInt uid), some (JsValue.vStr uname), some (JsValue.vBool adm) =>
            let tk := createTokens hashFn rng secret now uid uname adm
            match updateQueryExec db tk.refreshTokenHash (now + REFRESH_TOKEN_EXPIRY)
                refreshTokenHash with
            | Except.error _ =>
                -- queryWithRetry exhausts its attempts and throws; 500
                (RefreshResult.serverError, db)
            | Except.ok db2 =>
                (RefreshResult.ok tk.accessToken tk.refreshToken, db2)
        | _, _, _ =>
            -- createTokens rejects non-number/string/boolean arguments
            -- (createTokens.js lines 31-33); the throw becomes a 500
            (RefreshResult.serverError, db)

/-- Status and body of a logout response. -/
structure LogoutResponse where
  status : Nat
deriving DecidableEq

/-- app.js lines 147-161, the POST /api/auth/logout handler body, for a
string `refreshToken` that passed input validation: delete the hash row if
present, otherwise do nothing, and reply 204 either way. -/
def logoutHandler (hashFn : String → String) (db : Db)
    (refreshToken : String) : LogoutResponse × Db :=
  let refreshTokenHash := hashFn refreshToken
  ({ status := 204 }, deleteQueryExec db refreshTokenHash)

/-! ## Concrete instances used by witnesses and counterexamples -/

/-- A concrete stand-in for hash.js in closed statements: prepends a marker,
so a digest never equals its preimage. -/
def demoHash (s : String) : String := "#" ++ s

/-- A concrete decode environment: the string `A` decodes to an admin token
and `U` to a non-admin token, both signed with secret `sec` and expiring at
instant 300; every other string is undecodable. -/
def demoDecode (s : String) : Option SignedJwt :=
  if s = "A" then
    some { payload := { sub := 1, name := "root", isAdmin := true },
           iat := 0, exp := 300, secret := "sec" }
  else if s = "U" then
    some { payload := { sub := 2, name := "guest", isAdmin := false },
           iat := 0, exp := 300, secret := "sec" }
  else none

/-- A state with one admin user and one live (far-future) refresh-token row
whose hash column holds `demoHash "old"`. -/
def rotateDb : Db :=
  { users := [{ id := 1, username := "admin", pwdHash := "pw", isAdmin := true }],
    refreshTokens := [{ userId := 1, tokenHash := "#old", expiresAt := 1000000 }] }

/-- A state with one admin user and one expired refresh-token row (its
`expires_at` lies before instant 0) whose hash column holds `demoHash "tok"`. -/
def expiredDb : Db :=
  { users := [{ id := 1, username := "admin", pwdHash := "pw", isAdmin := true }],
    refreshTokens := [{ userId := 1, tokenHash := "#tok", expiresAt := -5 }] }

/-! ## Shared lemmas about the retry loop -/

/-- An erroneous outcome carries an error value. -/
theorem isErr_exists_error (x : Except String α) (h : isErr x = true) :
    ∃ e, x = Except.error e := by
  cases x with
  | ok a => simp [isErr] at h
  | error e => exact ⟨e, rfl⟩

/-- If the invocations at offsets `i .. i+k-1` fail and the one at `i+k`
succeeds with `v`, the loop with more than `k` attempts left returns `v`
after exactly `k + 1` invocations. -/
theorem retryLoop_ok (op : Nat → Except String α) (failMsg : String) :
    ∀ (k n i : Nat) (v : α), k < n →
      (∀ j, j < k → isErr (op (i + j)) = true) →
      op (i + k) = Except.ok v →
      retryLoop op failMsg n i = (Except.ok v, k + 1)
  | k, 0, _, _, hk, _, _ => absurd hk (Nat.not_lt_zero k)
  | 0, n + 1, i, v, _, _, hok => by
      simp only [Nat.add_zero] at hok
      simp [retryLoop, hok]
  | k + 1, n + 1, i, v, hk, hfail, hok => by
      have h0 : isErr (op i) = true := by simpa using hfail 0 (Nat.succ_pos k)
      obtain ⟨e, he⟩ := isErr_exists_error (op i) h0
      have ih := retryLoop_ok op failMsg k n (i + 1) v (Nat.lt_of_succ_lt_succ hk)
        (fun j hj => by
          have h2 := hfail (j + 1) (by omega)
          have e2 : i + (j + 1) = i + 1 + j := by omega
          rwa [e2] at h2)
        (by
          have e2 : i + (k + 1) = i + 1 + k := by omega
          rwa [e2] at hok)
      simp [retryLoop, he, ih]

/-- If every invocation at offsets `i .. i+n-1` fails, the loop performs
exactly `n` invocations and ends with the fixed failure message. -/
theorem retryLoop_allFail (op : Nat → Except String α) (failMsg : String) :
    ∀ (n i : Nat), (∀ j, j < n → isErr (op (i + j)) = true) →
      retryLoop op failMsg n i = (Except.error failMsg, n)
  | 0, _, _ => rfl
  | n + 1, i, hfail => by
      have h0 : isErr (op i) = true := by simpa using hfail 0 (Nat.succ_pos n)
      obtain ⟨e, he⟩ := isErr_exists_error (op i) h0
      have ih := retryLoop_allFail op failMsg n (i + 1) (fun j hj => by
        have h2 := hfail (j + 1) (by omega)
        have e2 : i + (j + 1) = i + 1 + j := by omega
        rwa [e2] at h2)
      simp [retryLoop, he, ih]

/-! ## Claims -/

/-- C1: for every operation and every maxAttempts ≥ 1, if the wrapped
operation fails on exactly the first k attempts (k < maxAttempts) and then
succeeds, the retry wrapper (db `queryWithRetry` and the s3 upload loop)
returns the success value after exactly k + 1 underlying invocations — none
after the first success — and if the operation fails on all attempts the
wrapper throws after exactly maxAttempts invocations. -/
theorem c1_retry_invocations_exact (op : Nat → Except String α)
    (attempts k : Nat) (v : α) (_hA : 1 ≤ attempts) :
    (k < attempts → (∀ j, j < k → isErr (op j) = true) → op k = Except.ok v →
      queryWithRetry op attempts = (Except.ok v, k + 1) ∧
      uploadResumeRetry op attempts = (Except.ok v, k + 1)) ∧
    ((∀ j, j < attempts → isErr (op j) = true) →
      isErr (queryWithRetry op attempts).1 = true ∧
      (queryWithRetry op attempts).2 = attempts ∧
      isErr (uploadResumeRetry op attempts).1 = true ∧
      (uploadResumeRetry op attempts).2 = attempts) := by
  constructor
  · intro hk hfail hok
    have hfail0 : ∀ j, j < k → isErr (op (0 + j)) = true := by
      intro j hj
      simpa using hfail j hj
    have hok0 : op (0 + k) = Except.ok v := by simpa using hok
    exact ⟨retryLoop_ok op _ k attempts 0 v hk hfail0 hok0,
           retryLoop_ok op _ k attempts 0 v hk hfail0 hok0⟩
  · intro hfail
    have hfail0 : ∀ j, j < attempts → isErr (op (0 + j)) = true := by
      intro j hj
      simpa using hfail j hj
    have h1 := retryLoop_allFail op "Query failed after all attempts" attempts 0 hfail0
    have h2 := retryLoop_allFail op "Upload resume failed after all attempts" attempts 0 hfail0
    refine ⟨?_, ?_, ?_, ?_⟩ <;> simp [queryWithRetry, uploadResumeRetry, h1, h2, isErr]

/-- Witness for C1: with an operation failing once then succeeding with 7,
three attempts return 7 after 2 invocations; an always-failing operation is
invoked exactly 3 times. -/
theorem c1_retry_invocations_exact_witness :
    queryWithRetry (fun i => if i = 0 then Except.error "e" else Except.ok 7) 3 =
      (Except.ok 7, 2) ∧
    (queryWithRetry (fun _ : Nat => (Except.error "e" : Except String Nat)) 3).2 = 3 := by
  constructor
  · exact ((c1_retry_invocations_exact
      (fun i => if i = 0 then Except.error "e" else Except.ok 7) 3 1 7
      (by decide)).1 (by decide) (by decide) (by decide)).1
  · exact ((c1_retry_invocations_exact
      (fun _ : Nat => (Except.error "e" : Except String Nat)) 3 0 0
      (by decide)).2 (by decide)).2.1

/-- C6 counterexample: with every attempt failing as `connection refused`,
the db wrapper throws `Query failed after all attempts` — an error that is
neither the last underlying error unchanged nor a wrap of it carrying the
attempt count (the claim as stated is false). -/
theorem c6_counterexample :
    (queryWithRetry (fun _ : Nat =>
        (Except.error "connection refused" : Except String Nat)) 3).1 =
      Except.error "Query failed after all attempts" ∧
    ¬ lastErrorPropagated
        (errMsg (queryWithRetry (fun _ : Nat =>
          (Except.error "connection refused" : Except String Nat)) 3).1)
        "connection refused" 3 := by
  decide

/-- C6 (amended): when all maxAttempts attempts fail, the wrapper discards
the underlying errors (they are only logged) and throws a fresh error with a
fixed operation-specific message — `Query failed after all attempts` for the
relational gateway and `Upload resume failed after all attempts` for the
blob upload — after exactly maxAttempts invocations. -/
theorem c6_amended_fixed_failure_message (op : Nat → Except String α)
    (attempts : Nat) (hfail : ∀ j, j < attempts → isErr (op j) = true) :
    queryWithRetry op attempts =
      (Except.error "Query failed after all attempts", attempts) ∧
    uploadResumeRetry op attempts =
      (Except.error "Upload resume failed after all attempts", attempts) := by
  have hfail0 : ∀ j, j < attempts → isErr (op (0 + j)) = true := by
    intro j hj
    simpa using hfail j hj
  exact ⟨retryLoop_allFail op _ attempts 0 hfail0,
         retryLoop_allFail op _ attempts 0 hfail0⟩

/-- Witness for the amended C6 at a concrete always-failing operation. -/
theorem c6_amended_fixed_failure_message_witness :
    queryWithRetry (fun _ : Nat => (Except.error "x" : Except String Nat)) 2 =
      (Except.error "Query failed after all attempts", 2) := by
  exact (c6_amended_fixed_failure_message
    (fun _ : Nat => (Except.error "x" : Except String Nat)) 2 (by decide)).1

/-- C8 counterexample: the claim that both gateways wait 1000 ms between
attempts in production is false — the blob gateway uses the constant 10 ms
delay in every environment (s3.js line 15). -/
theorem c8_counterexample :
    s3DelayFor "production" = 10 ∧ ¬ retryDefaultsClaim := by
  decide

/-- C8 (amended): both gateways default to 3 attempts; the relational
gateway waits 1000 ms between attempts outside the test environment and
10 ms under test; the blob gateway waits 10 ms in every environment. -/
theorem c8_amended_retry_defaults (nodeEnv : String) :
    dbDefaultAttempts = 3 ∧ s3DefaultAttempts = 3 ∧
    dbDELAY "test" = 10 ∧ (nodeEnv ≠ "test" → dbDELAY nodeEnv = 1000) ∧
    s3DelayFor nodeEnv = 10 := by
  refine ⟨rfl, rfl, rfl, ?_, rfl⟩
  intro h
  simp [dbDELAY, h]

/-- Witness for the amended C8 in the production environment. -/
theorem c8_amended_retry_defaults_witness :
    dbDELAY "production" = 1000 ∧ s3DelayFor "production" = 10 := by
  exact ⟨(c8_amended_retry_defaults "production").2.2.2.1 (by decide),
         (c8_amended_retry_defaults "production").2.2.2.2⟩

/-- C7: issuing tokens for (id, username, isAdmin) and verifying the access
token with the issuing secret yields exactly the issued claims at any
instant before the 5-minute TTL elapses; once the TTL has elapsed
verification fails with the expiry-specific outcome, which is distinct from
the invalid-signature outcome (produced for any other secret). -/
theorem c7_issue_verify_roundtrip (hashFn : String → String)
    (rng secret : String) (now : Int) (id : Int) (username : String)
    (isAdmin : Bool) (now2 : Int) :
    (now2 < now + EXPIRES_IN_SECS →
      jwtVerify (createTokens hashFn rng secret now id username isAdmin).accessToken
          secret now2 =
        VerifyResult.ok { sub := id, name := username, isAdmin := isAdmin }) ∧
    (now + EXPIRES_IN_SECS ≤ now2 →
      jwtVerify (createTokens hashFn rng secret now id username isAdmin).accessToken
          secret now2 = VerifyResult.expired) ∧
    (∀ secret2, secret2 ≠ secret →
      jwtVerify (createTokens hashFn rng secret now id username isAdmin).accessToken
          secret2 now2 = VerifyResult.invalid) ∧
    VerifyResult.expired ≠ VerifyResult.invalid := by
  refine ⟨?_, ?_, ?_, by simp⟩
  · intro h
    simp only [createTokens, jwtSign, jwtVerify]
    rw [if_neg (by simp), if_neg (by omega)]
  · intro h
    simp only [createTokens, jwtSign, jwtVerify]
    rw [if_neg (by simp), if_pos (by omega)]
  · intro secret2 h
    simp only [createTokens, jwtSign, jwtVerify]
    rw [if_pos (by simpa [eq_comm] using h)]

/-- Witness for C7: a token issued at instant 0 for (1, u, true) verifies to
its own claims at instant 10, is expired at instant 300, and is invalid
under a different secret. -/
theorem c7_issue_verify_roundtrip_witness :
    jwtVerify (createTokens (fun s => s) "r" "sec" 0 1 "u" true).accessToken "sec" 10 =
      VerifyResult.ok { sub := 1, name := "u", isAdmin := true } ∧
    jwtVerify (createTokens (fun s => s) "r" "sec" 0 1 "u" true).accessToken "sec" 300 =
      VerifyResult.expired ∧
    jwtVerify (createTokens (fun s => s) "r" "sec" 0 1 "u" true).accessToken "other" 10 =
      VerifyResult.invalid := by
  refine ⟨?_, ?_, ?_⟩
  · exact (c7_issue_verify_roundtrip (fun s => s) "r" "sec" 0 1 "u" true 10).1 (by decide)
  · exact (c7_issue_verify_roundtrip (fun s => s) "r" "sec" 0 1 "u" true 300).2.1 (by decide)
  · exact (c7_issue_verify_roundtrip (fun s => s) "r" "sec" 0 1 "u" true 10).2.2.1
      "other" (by decide)

/-- C9: on the protected route, a request with no Authorization header is
rejected 401 as missing token; a token failing verification (invalid or
expired) is rejected 401 with a reason; a verified non-admin is rejected
403; a verified admin passes both checks; and whenever `authenticate`
rejects, the route responds with exactly that rejection, so authentication
runs before — and preempts — authorization. -/
theorem c9_protected_route_gating (decode : String → Option SignedJwt)
    (secret : String) (now : Int) :
    (protectedRoute decode secret now none =
      GateResult.denied 401 "Access token is required") ∧
    (∀ h t, bearerToken (some h) = some t → t ≠ "" →
      verifyString decode secret now t = VerifyResult.invalid →
      protectedRoute decode secret now (some h) =
        GateResult.denied 401 "Invalid access token ") ∧
    (∀ h t, bearerToken (some h) = some t → t ≠ "" →
      verifyString decode secret now t = VerifyResult.expired →
      protectedRoute decode secret now (some h) =
        GateResult.denied 401 "Access token has expired ") ∧
    (∀ h t p, bearerToken (some h) = some t → t ≠ "" →
      verifyString decode secret now t = VerifyResult.ok p → p.isAdmin = false →
      protectedRoute decode secret now (some h) =
        GateResult.denied 403 "Forbidden: Admins only") ∧
    (∀ h t p, bearerToken (some h) = some t → t ≠ "" →
      verifyString decode secret now t = VerifyResult.ok p → p.isAdmin = true →
      protectedRoute decode secret now (some h) = GateResult.granted p) ∧
    (∀ header s m, authenticate decode secret now header = AuthOutcome.reject s m →
      protectedRoute decode secret now header = GateResult.denied s m) := by
  refine ⟨?_, ?_, ?_, ?_, ?_, ?_⟩
  · simp [protectedRoute, authenticate, bearerToken]
  · intro h t hbt hne hv
    simp [protectedRoute, authenticate, hbt, hne, hv]
  · intro h t hbt hne hv
    simp [protectedRoute, authenticate, hbt, hne, hv]
  · intro h t p hbt hne hv hadm
    simp [protectedRoute, authenticate, authorize, hbt, hne, hv, hadm]
  · intro h t p hbt hne hv hadm
    simp [protectedRoute, authenticate, authorize, hbt, hne, hv, hadm]
  · intro header s m ha
    simp [protectedRoute, ha]

/-- Witness for C9 in the concrete decode environment: missing header 401,
garbage token 401 invalid, expired admin token 401 expired, non-admin 403,
admin granted. -/
theorem c9_protected_route_gating_witness :
    protectedRoute demoDecode "sec" 0 none =
      GateResult.denied 401 "Access token is required" ∧
    protectedRoute demoDecode "sec" 0 (some "Bearer X") =
      GateResult.denied 401 "Invalid access token " ∧
    protectedRoute demoDecode "sec" 400 (some "Bearer A") =
      GateResult.denied 401 "Access token has expired " ∧
    protectedRoute demoDecode "sec" 0 (some "Bearer U") =
      GateResult.denied 403 "Forbidden: Admins only" ∧
    protectedRoute demoDecode "sec" 0 (some "Bearer A") =
      GateResult.granted { sub := 1, name := "root", isAdmin := true } := by
  refine ⟨?_, ?_, ?_, ?_, ?_⟩
  · exact (c9_protected_route_gating demoDecode "sec" 0).1
  · exact (c9_protected_route_gating demoDecode "sec" 0).2.1 "Bearer X" "X"
      (by decide) (by decide) (by decide)
  · exact (c9_protected_route_gating demoDecode "sec" 400).2.2.1 "Bearer A" "A"
      (by decide) (by decide) (by decide)
  · exact (c9_protected_route_gating demoDecode "sec" 0).2.2.2.1 "Bearer U" "U"
      { sub := 2, name := "guest", isAdmin := false }
      (by decide) (by decide) (by decide) (by decide)
  · exact (c9_protected_route_gating demoDecode "sec" 0).2.2.2.2.1 "Bearer A" "A"
      { sub := 1, name := "root", isAdmin := true }
      (by decide) (by decide) (by decide) (by decide)

/-- C10 counterexample: for the header `Bearer a b` — which contains a
space — the middleware extracts and verifies `a`, the second
space-separated component, not `a b`, the substring after the first space;
the claim as stated is false. -/
theorem c10_counterexample :
    bearerToken (some "Bearer a b") = some "a" ∧
    afterFirstSpace "Bearer a b" = some "a b" ∧
    ¬ bearerToken (some "Bearer a b") = afterFirstSpace "Bearer a b" := by
  decide

/-- C10 (amended): the middleware never checks the scheme word — two headers
with the same second space-separated component are treated identically,
whatever their scheme words or trailing components are — and a header whose
second component is absent or empty is rejected 401 as a missing token. -/
theorem c10_amended_second_component_only (decode : String → Option SignedJwt)
    (secret : String) (now : Int) :
    (∀ h h2 s1 s2 t r1 r2, jsSplitSpace h = s1 :: t :: r1 →
      jsSplitSpace h2 = s2 :: t :: r2 →
      authenticate decode secret now (some h) =
        authenticate decode secret now (some h2)) ∧
    (∀ h, (jsSplitSpace h).get? 1 = none →
      authenticate decode secret now (some h) =
        AuthOutcome.reject 401 "Access token is required") ∧
    (∀ h, (jsSplitSpace h).get? 1 = some "" →
      authenticate decode secret now (some h) =
        AuthOutcome.reject 401 "Access token is required") := by
  refine ⟨?_, ?_, ?_⟩
  · intro h h2 s1 s2 t r1 r2 hh hh2
    simp [authenticate, bearerToken, hh, hh2]
  · intro h hh
    rw [List.get?_eq_getElem?] at hh
    simp [authenticate, bearerToken, hh]
  · intro h hh
    rw [List.get?_eq_getElem?] at hh
    simp [authenticate, bearerToken, hh]

/-- Witness for the amended C10: a `Basic` header with trailing junk and a
`Bearer` header carrying the same credential behave identically, and the
bare header `Bearer` is rejected as a missing token. -/
theorem c10_amended_second_component_only_witness :
    authenticate demoDecode "sec" 0 (some "Basic A junk") =
      authenticate demoDecode "sec" 0 (some "Bearer A") ∧
    authenticate demoDecode "sec" 0 (some "Bearer") =
      AuthOutcome.reject 401 "Access token is required" := by
  constructor
  · exact (c10_amended_second_component_only demoDecode "sec" 0).1
      "Basic A junk" "Bearer A" "Basic" "Bearer" "A" ["junk"] []
      (by decide) (by decide)
  · exact (c10_amended_second_component_only demoDecode "sec" 0).2.1
      "Bearer" (by decide)

/-- C2: the claim that a successful rotation replaces the stored hash and
makes a second use of the old token fail 401 describes the intended
behaviour, but the code cannot perform it.  The rotation UPDATE statement
contains no comma at all, so its two SET assignments are not comma-separated
as the UPDATE grammar requires and the statement can never execute; and the
lookup projects `(user_id, expires_at)` as one composite column, so the
handler dies at the user lookup first.  Concretely, rotating a valid stored
token yields a 500 with the state unchanged — the old hash is still stored —
and a repeated rotation with the same token yields another 500, not the
claimed 401. -/
theorem c2_rotation_never_replaces_hash :
    containsSub updateQuery "," = false ∧
    containsSub refreshTokenQuery "(user_id, expires_at)" = true ∧
    updateQueryExec rotateDb "#new" 5 "#old" =
      Except.error "syntax error at or near expires_at" ∧
    refreshHandler demoHash "newRng" "sec" 0 rotateDb "old" =
      (RefreshResult.serverError, rotateDb) ∧
    rotateDb.refreshTokens =
      [{ userId := 1, tokenHash := demoHash "old", expiresAt := 1000000 }] ∧
    refreshHandler demoHash "newRng2" "sec" 1 rotateDb "old" =
      (RefreshResult.serverError, rotateDb) ∧
    RefreshResult.serverError ≠ RefreshResult.res 401 "Invalid refresh token" := by
  decide

/-- C3: the only values either durable write of a refresh token ever
receives are the user id, expiry dates, and one-way hashes — the raw token
never appears among the parameters of the login INSERT or the rotation
UPDATE (unless a raw value literally collided with a digest), and every
string parameter of either statement is a digest produced by createTokens
from a raw token. -/
theorem c3_only_hashes_persisted (hashFn : String → String)
    (rng secret : String) (tnow : Int) (id : Int) (uname : String)
    (adm : Bool) (uid : Int) (now : Int) (oldRaw : String) (tk : Tokens)
    (htk : tk = createTokens hashFn rng secret tnow id uname adm) :
    (tk.refreshTokenHash = hashFn tk.refreshToken) ∧
    (loginInsertParams uid tk now =
      [SqlParam.pInt uid, SqlParam.pStr (hashFn tk.refreshToken),
       SqlParam.pDate (now + REFRESH_TOKEN_EXPIRY)]) ∧
    (hashFn tk.refreshToken ≠ tk.refreshToken →
      SqlParam.pStr tk.refreshToken ∉ loginInsertParams uid tk now) ∧
    (∀ s, SqlParam.pStr s ∈ loginInsertParams uid tk now →
      s = hashFn tk.refreshToken) ∧
    (refreshUpdateParams tk (hashFn oldRaw) now =
      [SqlParam.pStr (hashFn tk.refreshToken),
       SqlParam.pDate (now + REFRESH_TOKEN_EXPIRY),
       SqlParam.pStr (hashFn oldRaw)]) ∧
    (oldRaw ≠ hashFn oldRaw → oldRaw ≠ hashFn tk.refreshToken →
      SqlParam.pStr oldRaw ∉ refreshUpdateParams tk (hashFn oldRaw) now) ∧
    (tk.refreshToken ≠ hashFn tk.refreshToken →
      tk.refreshToken ≠ hashFn oldRaw →
      SqlParam.pStr tk.refreshToken ∉ refreshUpdateParams tk (hashFn oldRaw) now) ∧
    (∀ s, SqlParam.pStr s ∈ refreshUpdateParams tk (hashFn oldRaw) now →
      s = hashFn tk.refreshToken ∨ s = hashFn oldRaw) := by
  subst htk
  refine ⟨rfl, rfl, ?_, ?_, rfl, ?_, ?_, ?_⟩
  · intro hne
    simp [createTokens, loginInsertParams]
    exact fun h => hne h.symm
  · intro s hs
    simp [createTokens, loginInsertParams] at hs
    simp [createTokens, hs]
  · intro h1 h2
    simp [createTokens, refreshUpdateParams] at h1 h2 ⊢
    exact ⟨h2, h1⟩
  · intro h1 h2
    simp [createTokens, refreshUpdateParams] at h1 h2 ⊢
    exact ⟨h1, h2⟩
  · intro s hs
    simp [createTokens, refreshUpdateParams] at hs
    rcases hs with hs | hs <;> simp [createTokens, hs]

/-- Witness for C3: with a marker-prefix digest, neither the fresh raw token
nor the presented old raw token occurs among the INSERT or UPDATE
parameters. -/
theorem c3_only_hashes_persisted_witness :
    SqlParam.pStr
        (createTokens demoHash "r" "sec" 0 1 "u" true).refreshToken ∉
      loginInsertParams 5 (createTokens demoHash "r" "sec" 0 1 "u" true) 0 ∧
    SqlParam.pStr "o" ∉
      refreshUpdateParams (createTokens demoHash "r" "sec" 0 1 "u" true)
        (demoHash "o") 0 := by
  constructor
  · exact (c3_only_hashes_persisted demoHash "r" "sec" 0 1 "u" true 5 0 "o"
      (createTokens demoHash "r" "sec" 0 1 "u" true) rfl).2.2.1 (by decide)
  · exact (c3_only_hashes_persisted demoHash "r" "sec" 0 1 "u" true 5 0 "o"
      (createTokens demoHash "r" "sec" 0 1 "u" true) rfl).2.2.2.2.2.1
      (by decide) (by decide)

/-- C4: the claim that an unknown and an expired refresh token both fail
with the same 401 response holds only for the unknown case.  The lookup
returns its columns as one composite field, so the handler reads
`expires_at` as undefined, the expiry comparison is always false, and an
expired stored token proceeds past the check and ends in a 500 at the user
lookup instead of the claimed 401 — expiry is never actually enforced. -/
theorem c4_expired_token_not_rejected_401 :
    refreshHandler demoHash "r" "sec" 0 rotateDb "zzz" =
      (RefreshResult.res 401 "Invalid refresh token", rotateDb) ∧
    refreshHandler demoHash "r" "sec" 0 expiredDb "tok" =
      (RefreshResult.serverError, expiredDb) ∧
    RefreshResult.serverError ≠ RefreshResult.res 401 "Invalid refresh token" ∧
    jsField ((refreshTokenQueryExec expiredDb (demoHash "tok")).headD [])
      "expires_at" = none ∧
    jsLtDate (jsField ((refreshTokenQueryExec expiredDb (demoHash "tok")).headD [])
      "expires_at") 0 = false := by
  decide

/-- C5: revoke is idempotent — for every digest function, state and token,
logout replies 204, afterwards no row with the token hash remains, a second
logout with the same token also replies 204, and it leaves the state
exactly as the first one did. -/
theorem c5_logout_idempotent (hashFn : String → String) (db : Db) (t : String) :
    (logoutHandler hashFn db t).1.status = 204 ∧
    ((logoutHandler hashFn db t).2.refreshTokens.all fun r =>
      !(r.tokenHash == hashFn t)) = true ∧
    (logoutHandler hashFn (logoutHandler hashFn db t).2 t).1.status = 204 ∧
    (logoutHandler hashFn (logoutHandler hashFn db t).2 t).2 =
      (logoutHandler hashFn db t).2 := by
  refine ⟨rfl, ?_, rfl, ?_⟩
  · simp [logoutHandler, deleteQueryExec, List.all_eq_true, List.mem_filter]
  · simp [logoutHandler, deleteQueryExec, List.filter_filter]

end ATS
